import Mathlib

/-!
Verification of the release-preparation script (`scripts/prepare_releases.py`).

The script is shallowly embedded: its pure fragments (semantic-version
parsing, next-version calculation, release-identity derivation, commit
summaries) become Lean functions over `String`/`List`, and its interactions
with external systems (the package index, the `gh` CLI, the local
`pyproject.toml` manifest) are modelled by explicit environment records whose
fields carry each collaborator's possible answers, so that the control flow of
the script can be re-traced deterministically.
-/

namespace ADRI

/-- Numeric value of an ASCII digit character, as `int` does on digits. -/
def digitVal (c : Char) : Nat := c.toNat - 48

/-- Value of a decimal digit string, as Python `int` on a digit run. -/
def digitsToNat (l : List Char) : Nat := l.foldl (fun a c => 10 * a + digitVal c) 0

/-- One `(\d+)` group of the regex `^(\d+)\.(\d+)\.(\d+)`: the maximal leading
digit run, which must be non-empty; returns its value and the remainder. -/
def parseGroup (l : List Char) : Option (Nat × List Char) :=
  let d := l.takeWhile Char.isDigit
  if d.isEmpty then none else some (digitsToNat d, l.dropWhile Char.isDigit)

/-- The literal `\.` of the regex: the remainder must start with a dot. -/
def expectDot (r : List Char) : Option (List Char) :=
  match r with
  | c :: t => if c = '.' then some t else none
  | [] => none

/-- Embedding of `parse_version` (prepare_releases.py:168-174): match the version string
against `^(\d+)\.(\d+)\.(\d+)` and return the three numeric groups; text after
the third group is ignored.  The `ValueError` raised on a failed match is
modelled as `none`. -/
def parse_version (version : String) : Option (Nat × Nat × Nat) := do
  let (x, r1) ← parseGroup version.data
  let t1 ← expectDot r1
  let (y, r2) ← parseGroup t1
  let t2 ← expectDot r2
  let (z, _) ← parseGroup t2
  pure (x, y, z)

/-- The ASCII character of a decimal digit. -/
def digitChar (n : Nat) : Char :=
  if n = 0 then '0'
  else if n = 1 then '1'
  else if n = 2 then '2'
  else if n = 3 then '3'
  else if n = 4 then '4'
  else if n = 5 then '5'
  else if n = 6 then '6'
  else if n = 7 then '7'
  else if n = 8 then '8'
  else '9'

/-- Decimal digits of a natural number, fuelled so that the recursion is
structural; `natToDigitsAux (n + 1) n` always has enough fuel. -/
def natToDigitsAux : Nat → Nat → List Char
  | 0, _ => []
  | f + 1, n =>
    if n < 10 then [digitChar n]
    else natToDigitsAux f (n / 10) ++ [digitChar (n % 10)]

/-- Python `str` on a non-negative integer: its decimal digits. -/
def pyStr (n : Nat) : List Char := natToDigitsAux (n + 1) n

/-- Python `str` on a non-negative integer, as a Lean `String`. -/
def pyStrS (n : Nat) : String := ⟨pyStr n⟩

/-- The f-string `f"{a}.{b}.{c}"` used to render each candidate version. -/
def fmt3 (a b c : Nat) : String := ⟨pyStr a ++ '.' :: pyStr b ++ '.' :: pyStr c⟩

/-- The dictionary returned by `calculate_next_versions`: one candidate next
version string per change type. -/
structure NextVersions where
  patch : String
  minor : String
  major : String
deriving DecidableEq

/-- Python's `change_type in next_versions` membership test and
`next_versions[change_type]` lookup, over the fixed key set of the dictionary
built by `calculate_next_versions`. -/
def NextVersions.get (nv : NextVersions) (change_type : String) : Option String :=
  if change_type = "patch" then some nv.patch
  else if change_type = "minor" then some nv.minor
  else if change_type = "major" then some nv.major
  else none

/-- Embedding of `calculate_next_versions` (prepare_releases.py:176-184): parse the current
version and render the three candidate next versions.  The `ValueError`
propagated from a failed parse is modelled as `none`. -/
def calculate_next_versions (current_version : String) : Option NextVersions :=
  match parse_version current_version with
  | none => none
  | some (major, minor, patch) =>
    some ⟨fmt3 major minor (patch + 1), fmt3 major (minor + 1) 0, fmt3 (major + 1) 0 0⟩

/-- A list that does not begin with a decimal digit; this is where a greedy
`\d+` group stops. -/
def noDigitHead : List Char → Bool
  | [] => true
  | c :: _ => !c.isDigit

/-- A string whose start matches the regex `^\d+\.\d+\.\d+`. -/
def matchesVersionStart (s : String) : Prop :=
  ∃ dX dY dZ rest : List Char,
    dX ≠ [] ∧ dY ≠ [] ∧ dZ ≠ [] ∧
    (∀ c ∈ dX, c.isDigit) ∧ (∀ c ∈ dY, c.isDigit) ∧ (∀ c ∈ dZ, c.isDigit) ∧
    s.data = dX ++ '.' :: (dY ++ '.' :: (dZ ++ rest))

/-- Strict semantic-version ordering on parsed (major, minor, patch) triples:
lexicographic, major first. -/
def semverLt (a b : Nat × Nat × Nat) : Prop :=
  a.1 < b.1 ∨ (a.1 = b.1 ∧ (a.2.1 < b.2.1 ∨ (a.2.1 = b.2.1 ∧ a.2.2 < b.2.2)))

/-- Helper for `pyTitle`: Python `str.title()` over a character list, tracking
whether the previous character was alphabetic. -/
def pyTitleAux : Bool → List Char → List Char
  | _, [] => []
  | prevAlpha, c :: t =>
    (if c.isAlpha then (if prevAlpha then c.toLower else c.toUpper) else c)
      :: pyTitleAux c.isAlpha t

/-- Python `str.title()`: first letter of every word upper-cased, the rest
lower-cased (`"patch".title() == "Patch"`). -/
def pyTitle (s : String) : String := ⟨pyTitleAux false s.data⟩

/-- The emoji lookup `{"patch": U+1F527, "minor": U+1F680, "major": U+1F4A5}`
with default `U+1F4E6` (prepare_releases.py:485-486). -/
def emojiFor (change_type : String) : String :=
  if change_type = "patch" then "🔧"
  else if change_type = "minor" then "🚀"
  else if change_type = "major" then "💥"
  else "📦"

/-- The observable steps `prepare_release_by_type` takes, in order: the
version-record sync, the version resolution, the next-version computation,
the commit query, the draft cleanup and the draft publication.  The first
two and the last three involve external calls; `calculate_next` is the
version arithmetic. -/
inductive Event where
  | sync_version_json
  | get_current_version
  | calculate_next
  | get_commits
  | cleanup_old_drafts
  | create_or_update_draft (tag_name title : String) (is_prerelease : Bool)
deriving DecidableEq

/-- The dictionary returned by `prepare_release_by_type` on success. -/
structure ReleaseResult where
  version : String
  tag_name : String
  title : String
  release_type : String
  is_prerelease : Bool
deriving DecidableEq

/-- Embedding of `prepare_release_by_type` (prepare_releases.py:444-513), as a function of
the requested change type, the beta and sync flags, and the resolved current
version (the value `get_current_version` returns).  It yields the ordered
trace of steps performed together with either the raised error or the result
dictionary.  Errors are modelled as `Except.error` with the message. -/
def prepare_release_by_type (change_type : String) (beta : Bool)
    (sync_version : Bool) (current_version : String) :
    List Event × Except String ReleaseResult :=
  let ev0 : List Event := if sync_version then [Event.sync_version_json] else []
  let ev1 := ev0 ++ [Event.get_current_version]
  match calculate_next_versions current_version with
  | none => (ev1, Except.error ("Invalid version format: " ++ current_version))
  | some next_versions =>
    let ev2 := ev1 ++ [Event.calculate_next]
    match next_versions.get change_type with
    | none => (ev2, Except.error ("Invalid change type: " ++ change_type))
    | some base_version =>
      let ev3 := ev2 ++ [Event.get_commits, Event.cleanup_old_drafts]
      let r : ReleaseResult :=
        if beta then
          { version := base_version ++ "-beta.1"
            tag_name := "candidate-beta-" ++ change_type ++ "-v" ++ base_version
            title := "🧪 ADRI v" ++ (base_version ++ "-beta.1") ++ " - Beta "
              ++ pyTitle change_type ++ " (DRAFT)"
            release_type := "beta-" ++ change_type
            is_prerelease := true }
        else
          { version := base_version
            tag_name := "candidate-" ++ change_type ++ "-v" ++ base_version
            title := emojiFor change_type ++ " ADRI v" ++ base_version ++ " - "
              ++ pyTitle change_type ++ " Release (DRAFT)"
            release_type := change_type
            is_prerelease := false }
      (ev3 ++ [Event.create_or_update_draft r.tag_name r.title r.is_prerelease],
        Except.ok r)

/-- One draft prepared by the legacy all-types mode. -/
structure DraftSpec where
  tag_name : String
  version : String
  title : String
  is_prerelease : Bool
deriving DecidableEq

/-- The six drafts the `release_types` loop of `prepare_all_releases` builds
from the candidate next versions: the beta rows key their tag off the base
candidate version and decorate the version itself with `-beta.1`. -/
def legacy_drafts (nv : NextVersions) : List DraftSpec :=
  [⟨"candidate-patch-v" ++ nv.patch, nv.patch,
      "🔧 ADRI v" ++ nv.patch ++ " - Patch Release (DRAFT)", false⟩,
    ⟨"candidate-minor-v" ++ nv.minor, nv.minor,
      "🚀 ADRI v" ++ nv.minor ++ " - Minor Release (DRAFT)", false⟩,
    ⟨"candidate-major-v" ++ nv.major, nv.major,
      "💥 ADRI v" ++ nv.major ++ " - Major Release (DRAFT)", false⟩,
    ⟨"candidate-beta-patch-v" ++ nv.patch, nv.patch ++ "-beta.1",
      "🧪 ADRI v" ++ (nv.patch ++ "-beta.1") ++ " - Beta Patch (DRAFT)", true⟩,
    ⟨"candidate-beta-minor-v" ++ nv.minor, nv.minor ++ "-beta.1",
      "🧪 ADRI v" ++ (nv.minor ++ "-beta.1") ++ " - Beta Minor (DRAFT)", true⟩,
    ⟨"candidate-beta-major-v" ++ nv.major, nv.major ++ "-beta.1",
      "🧪 ADRI v" ++ (nv.major ++ "-beta.1") ++ " - Beta Major (DRAFT)", true⟩]

/-- Embedding of `prepare_all_releases` (prepare_releases.py:515-560): resolve the current
version, compute the candidates and publish all six draft types. -/
def prepare_all_releases (current_version : String) : Option (List DraftSpec) :=
  match calculate_next_versions current_version with
  | none => none
  | some nv => some (legacy_drafts nv)

/-- Modelled from the spec: the package-index manager (`pypi_manager`, which
is imported by the script but not part of src/) answers the production and
staging (TestPyPI) version queries; per the spec each external query either
returns the latest published version, finds none, or fails (for example when
the index is unreachable), and the local manifest (`pyproject.toml`) read
either yields the declared version or fails when the file is missing or
unparsable.  An environment fixes one answer per collaborator. -/
structure VersionEnv where
  use_pypi : Bool
  production_query : Except String (Option String)
  testpypi_query : Except String (Option String)
  pyproject_version : Except String String

/-- Embedding of `get_current_version_from_pypi` (prepare_releases.py:84-106): inside one
`try`, ask the production index and, only if it answers "no version", the
staging index; any exception from either query is caught (and logged) and the
whole step reports no version. -/
def get_current_version_from_pypi (env : VersionEnv) : Option String :=
  if !env.use_pypi then none
  else
    match env.production_query with
    | Except.error _ => none
    | Except.ok (some v) => some v
    | Except.ok none =>
      match env.testpypi_query with
      | Except.error _ => none
      | Except.ok (some v) => some v
      | Except.ok none => none

/-- Embedding of `get_current_version_from_pyproject` (prepare_releases.py:108-133): read
the manifest's declared version; a missing or unparsable manifest raises. -/
def get_current_version_from_pyproject (env : VersionEnv) : Except String String :=
  env.pyproject_version

/-- Embedding of `get_current_version` (prepare_releases.py:135-144): the package index
first, the local manifest as fallback; an error here aborts the run. -/
def get_current_version (env : VersionEnv) : Except String String :=
  match get_current_version_from_pypi env with
  | some v => Except.ok v
  | none => get_current_version_from_pyproject env

/-- One commit record as assembled by `get_commits_since_last_release`. -/
structure Commit where
  sha : String
  message : String
  author : String
  date : String
deriving DecidableEq

/-- The external answers `get_commits_since_last_release` can observe: the
hosting-platform API query (whose `jq` filter slices `.[0:10]`) over the
repository's commit list, and the `git log -10` fallback over the local
history; either collaborator can fail. -/
structure CommitEnv where
  gh_ok : Bool
  repo_commits : List Commit
  git_ok : Bool
  git_commits : List Commit

/-- Embedding of `get_commits_since_last_release` (prepare_releases.py:186-242): the API
path yields the first 10 repository commits; when the CLI fails or yields no
output, fall back to `git log -10`; when that also fails, return no commits. -/
def get_commits_since_last_release (env : CommitEnv) : List Commit :=
  if env.gh_ok && !(env.repo_commits.take 10).isEmpty then env.repo_commits.take 10
  else if env.git_ok then env.git_commits.take 10
  else []

/-- The truncation applied to a commit message inside
`generate_release_notes` (prepare_releases.py:341-343): messages longer than
60 characters are cut to their first 57 characters plus an ellipsis. -/
def truncateMessage (msg : String) : String :=
  if 60 < msg.data.length then ⟨msg.data.take 57⟩ ++ "..." else msg

/-- One bulleted commit line of the summary (prepare_releases.py:344). -/
def commitLine (c : Commit) : String :=
  "• " ++ truncateMessage c.message ++ " (" ++ c.sha ++ ")"

/-- The commit-summary block built inside `generate_release_notes`
(prepare_releases.py:336-350): up to the first 8 commits as bulleted lines, an
overflow line when more than 8 exist, and a fallback line when none do. -/
def commit_summary (commits : List Commit) : String :=
  if commits.isEmpty then "• See commit history for detailed changes"
  else
    let s := "Recent Changes:\n\n"
      ++ String.intercalate "\n" ((commits.take 8).map commitLine)
    if 8 < commits.length then
      s ++ ("\n• ... and " ++ pyStrS (commits.length - 8) ++ " more commits")
    else s

/-- One release record as listed by `gh release list --json
tagName,name,isDraft` (plus the fields the script writes). -/
structure Release where
  tagName : String
  name : String
  body : String
  isDraft : Bool
  isPrerelease : Bool
deriving DecidableEq

/-- Embedding of `create_or_update_draft` (prepare_releases.py:381-442) acting on the
hosting platform's release list: scan for a draft whose tag matches exactly;
if found, `gh release edit` rewrites that release's title, notes and draft
flag (the `--prerelease` flag is only ever added, never cleared); otherwise
`gh release create --draft` appends a new draft release. -/
def create_or_update_draft (releases : List Release) (tag_name title body : String)
    (prerelease : Bool) : List Release :=
  if releases.any (fun r => r.isDraft && r.tagName == tag_name) then
    releases.map (fun r =>
      if r.tagName == tag_name then
        { r with
          name := title
          body := body
          isDraft := true
          isPrerelease := if prerelease then true else r.isPrerelease }
      else r)
  else
    releases ++ [⟨tag_name, title, body, true, prerelease⟩]

example : parse_version "1.2.3" = some (1, 2, 3) := by decide
example : parse_version "1.2.3-rc1" = some (1, 2, 3) := by decide
example : parse_version "1.2" = none := by decide
example : parse_version "10.20.30" = some (10, 20, 30) := by decide
example : parse_version ".1.2.3" = none := by decide
example : calculate_next_versions "2.5.9" = some ⟨"2.5.10", "2.6.0", "3.0.0"⟩ := by decide
example : pyTitle "patch" = "Patch" := by decide
example : pyTitle "beta-minor" = "Beta-Minor" := by decide

theorem natToDigitsAux_fuel : ∀ f g n, n < f → n < g →
    natToDigitsAux f n = natToDigitsAux g n := by
  intro f
  induction f with
  | zero => intro g n h; omega
  | succ f ih =>
    intro g n hf hg
    cases g with
    | zero => omega
    | succ g =>
      show natToDigitsAux (f + 1) n = natToDigitsAux (g + 1) n
      unfold natToDigitsAux
      by_cases h10 : n < 10
      · simp [h10]
      · simp only [h10, if_false]
        have hdiv : n / 10 < n := Nat.div_lt_self (by omega) (by omega)
        rw [ih g (n / 10) (by omega) (by omega)]

theorem digitChar_isDigit (n : Nat) : (digitChar n).isDigit = true := by
  unfold digitChar
  split_ifs <;> decide

theorem digitVal_digitChar (n : Nat) (h : n < 10) : digitVal (digitChar n) = n := by
  unfold digitChar
  split_ifs with h0 h1 h2 h3 h4 h5 h6 h7 h8
  · subst h0; decide
  · subst h1; decide
  · subst h2; decide
  · subst h3; decide
  · subst h4; decide
  · subst h5; decide
  · subst h6; decide
  · subst h7; decide
  · subst h8; decide
  · have : n = 9 := by omega
    subst this; decide

theorem natToDigitsAux_digits : ∀ f n, n < f → ∀ c ∈ natToDigitsAux f n, c.isDigit := by
  intro f
  induction f with
  | zero => intro n h; omega
  | succ f ih =>
    intro n hf c hc
    unfold natToDigitsAux at hc
    by_cases h10 : n < 10
    · simp [h10] at hc
      subst hc; exact digitChar_isDigit n
    · simp only [h10, if_false, List.mem_append, List.mem_singleton] at hc
      rcases hc with hc | hc
      · have hdiv : n / 10 < n := Nat.div_lt_self (by omega) (by omega)
        exact ih (n / 10) (by omega) c hc
      · subst hc; exact digitChar_isDigit (n % 10)

theorem natToDigitsAux_ne_nil : ∀ f n, n < f → natToDigitsAux f n ≠ [] := by
  intro f n hf
  cases f with
  | zero => omega
  | succ f =>
    unfold natToDigitsAux
    by_cases h10 : n < 10 <;> simp [h10]

theorem digitsToNat_append_one (l : List Char) (c : Char) :
    digitsToNat (l ++ [c]) = 10 * digitsToNat l + digitVal c := by
  simp [digitsToNat, List.foldl_append]

theorem natToDigitsAux_val : ∀ f n, n < f → digitsToNat (natToDigitsAux f n) = n := by
  intro f
  induction f with
  | zero => intro n h; omega
  | succ f ih =>
    intro n hf
    unfold natToDigitsAux
    by_cases h10 : n < 10
    · simp only [h10, if_true]
      have : digitsToNat [digitChar n] = digitVal (digitChar n) := by
        simp [digitsToNat]
      rw [this, digitVal_digitChar n h10]
    · simp only [h10, if_false]
      have hdiv : n / 10 < n := Nat.div_lt_self (by omega) (by omega)
      rw [digitsToNat_append_one, ih (n / 10) (by omega),
        digitVal_digitChar (n % 10) (Nat.mod_lt n (by omega))]
      omega

theorem pyStr_digits (n : Nat) : ∀ c ∈ pyStr n, c.isDigit :=
  natToDigitsAux_digits (n + 1) n (Nat.lt_succ_self n)

theorem pyStr_ne_nil (n : Nat) : pyStr n ≠ [] :=
  natToDigitsAux_ne_nil (n + 1) n (Nat.lt_succ_self n)

theorem pyStr_val (n : Nat) : digitsToNat (pyStr n) = n :=
  natToDigitsAux_val (n + 1) n (Nat.lt_succ_self n)

theorem of_mem_takeWhile {p : Char → Bool} :
    ∀ {l : List Char} {c : Char}, c ∈ l.takeWhile p → p c := by
  intro l
  induction l with
  | nil => intro c hc; simp [List.takeWhile] at hc
  | cons a t ih =>
    intro c hc
    by_cases ha : p a
    · rw [List.takeWhile_cons_of_pos ha] at hc
      rcases List.mem_cons.mp hc with hc | hc
      · subst hc; exact ha
      · exact ih hc
    · rw [List.takeWhile_cons_of_neg ha] at hc
      simp at hc

theorem takeWhile_of_noDigitHead {r : List Char} (h : noDigitHead r) :
    r.takeWhile Char.isDigit = [] := by
  cases r with
  | nil => rfl
  | cons c t =>
    simp [noDigitHead] at h
    exact List.takeWhile_cons_of_neg (by simp [h])

theorem dropWhile_of_noDigitHead {r : List Char} (h : noDigitHead r) :
    r.dropWhile Char.isDigit = r := by
  cases r with
  | nil => rfl
  | cons c t =>
    simp [noDigitHead] at h
    exact List.dropWhile_cons_of_neg (by simp [h])

theorem parseGroup_append {ds r : List Char} (hne : ds ≠ [])
    (hd : ∀ c ∈ ds, c.isDigit) (hr : noDigitHead r) :
    parseGroup (ds ++ r) = some (digitsToNat ds, r) := by
  unfold parseGroup
  rw [List.takeWhile_append_of_pos hd, List.dropWhile_append_of_pos hd,
    takeWhile_of_noDigitHead hr, dropWhile_of_noDigitHead hr, List.append_nil]
  simp [List.isEmpty_iff, hne]

theorem parseGroup_sound {l : List Char} {n : Nat} {r : List Char}
    (h : parseGroup l = some (n, r)) :
    ∃ ds, ds ≠ [] ∧ (∀ c ∈ ds, c.isDigit) ∧ l = ds ++ r ∧ n = digitsToNat ds := by
  unfold parseGroup at h
  by_cases he : (l.takeWhile Char.isDigit).isEmpty
  · simp [he] at h
  · simp only [he, if_false] at h
    simp at h
    refine ⟨l.takeWhile Char.isDigit, ?_, ?_, ?_, h.1.symm⟩
    · intro hnil; rw [hnil] at he; simp at he
    · intro c hc; exact of_mem_takeWhile hc
    · rw [← h.2, List.takeWhile_append_dropWhile]

theorem expectDot_sound {r t : List Char} (h : expectDot r = some t) :
    r = '.' :: t := by
  cases r with
  | nil => simp [expectDot] at h
  | cons c tl =>
    by_cases hc : c = '.'
    · subst hc
      simp [expectDot] at h
      rw [h]
    · simp [expectDot, hc] at h

theorem expectDot_cons (t : List Char) : expectDot ('.' :: t) = some t := by
  simp [expectDot]

theorem noDigitHead_dot (t : List Char) : noDigitHead ('.' :: t) = true := by
  simp [noDigitHead]

theorem parse_version_groups {s : String} {dX dY dZ rest : List Char}
    (hX : dX ≠ []) (hY : dY ≠ []) (hZ : dZ ≠ [])
    (hdX : ∀ c ∈ dX, c.isDigit) (hdY : ∀ c ∈ dY, c.isDigit)
    (hdZ : ∀ c ∈ dZ, c.isDigit) (hrest : noDigitHead rest)
    (hs : s.data = dX ++ '.' :: (dY ++ '.' :: (dZ ++ rest))) :
    parse_version s = some (digitsToNat dX, digitsToNat dY, digitsToNat dZ) := by
  unfold parse_version
  rw [hs, parseGroup_append hX hdX (noDigitHead_dot _)]
  simp only [Option.bind_eq_bind, Option.some_bind, expectDot_cons]
  rw [parseGroup_append hY hdY (noDigitHead_dot _)]
  simp only [Option.some_bind, expectDot_cons]
  rw [parseGroup_append hZ hdZ hrest]
  simp

theorem parse_version_fmt3 (a b c : Nat) : parse_version (fmt3 a b c) = some (a, b, c) := by
  have hs : (fmt3 a b c).data = pyStr a ++ '.' :: (pyStr b ++ '.' :: (pyStr c ++ [])) := by
    simp [fmt3]
  rw [parse_version_groups (pyStr_ne_nil a) (pyStr_ne_nil b) (pyStr_ne_nil c)
    (pyStr_digits a) (pyStr_digits b) (pyStr_digits c) (by rfl) hs,
    pyStr_val, pyStr_val, pyStr_val]

theorem parse_version_sound {s : String} {x y z : Nat}
    (h : parse_version s = some (x, y, z)) : matchesVersionStart s := by
  unfold parse_version at h
  simp only [Option.bind_eq_bind, Option.pure_def] at h
  rcases hg1 : parseGroup s.data with _ | ⟨x0, r1⟩
  · rw [hg1] at h; simp at h
  rw [hg1] at h
  simp only [Option.some_bind] at h
  rcases he1 : expectDot r1 with _ | t1
  · rw [he1] at h; simp at h
  rw [he1] at h
  simp only [Option.some_bind] at h
  rcases hg2 : parseGroup t1 with _ | ⟨y0, r2⟩
  · rw [hg2] at h; simp at h
  rw [hg2] at h
  simp only [Option.some_bind] at h
  rcases he2 : expectDot r2 with _ | t2
  · rw [he2] at h; simp at h
  rw [he2] at h
  simp only [Option.some_bind] at h
  rcases hg3 : parseGroup t2 with _ | ⟨z0, r3⟩
  · rw [hg3] at h; simp at h
  rw [hg3] at h
  simp only [Option.some_bind] at h
  obtain ⟨dX, hX, hdX, hsX, _⟩ := parseGroup_sound hg1
  obtain ⟨dY, hY, hdY, hsY, _⟩ := parseGroup_sound hg2
  obtain ⟨dZ, hZ, hdZ, hsZ, _⟩ := parseGroup_sound hg3
  refine ⟨dX, dY, dZ, r3, hX, hY, hZ, hdX, hdY, hdZ, ?_⟩
  rw [hsX, expectDot_sound he1, hsY, expectDot_sound he2, hsZ]

theorem matchesVersionStart_length {s : String} (h : matchesVersionStart s) :
    5 ≤ s.data.length := by
  obtain ⟨dX, dY, dZ, rest, hX, hY, hZ, _, _, _, hs⟩ := h
  have lX : 1 ≤ dX.length := List.length_pos.mpr hX
  have lY : 1 ≤ dY.length := List.length_pos.mpr hY
  have lZ : 1 ≤ dZ.length := List.length_pos.mpr hZ
  rw [hs]
  simp [List.length_append]
  omega

/-- C1: a string starting with three dot-separated decimal groups parses to
exactly those three numbers, whatever trails them; a string whose start does
not match `\d+\.\d+\.\d+` makes `parse_version` fail (the raised FormatError
is modelled as `none`). -/
theorem parse_version_spec :
    (∀ (s : String) (dX dY dZ rest : List Char),
      dX ≠ [] → dY ≠ [] → dZ ≠ [] →
      (∀ c ∈ dX, c.isDigit) → (∀ c ∈ dY, c.isDigit) → (∀ c ∈ dZ, c.isDigit) →
      noDigitHead rest →
      s.data = dX ++ '.' :: (dY ++ '.' :: (dZ ++ rest)) →
      parse_version s = some (digitsToNat dX, digitsToNat dY, digitsToNat dZ)) ∧
    (∀ s : String, ¬ matchesVersionStart s → parse_version s = none) := by
  constructor
  · intro s dX dY dZ rest hX hY hZ hdX hdY hdZ hrest hs
    exact parse_version_groups hX hY hZ hdX hdY hdZ hrest hs
  · intro s hm
    rcases hp : parse_version s with _ | ⟨x, y, z⟩
    · rfl
    · exact absurd (parse_version_sound hp) hm

/-- Witness for C1 at "1.2.3-rc1" (trailing pre-release text ignored) and at
"1.2" (no third group, so parsing fails). -/
theorem parse_version_spec_witness :
    parse_version "1.2.3-rc1" = some (1, 2, 3) ∧ parse_version "1.2" = none := by
  constructor
  · exact (parse_version_spec.1 "1.2.3-rc1" ['1'] ['2'] ['3'] "-rc1".data
      (by decide) (by decide) (by decide) (by decide) (by decide) (by decide)
      (by decide) (by decide)).trans (by decide)
  · exact parse_version_spec.2 "1.2"
      (fun h => absurd (matchesVersionStart_length h) (by decide))

/-- C2: whenever the current version parses to (major, minor, patch),
`calculate_next_versions` succeeds and returns exactly the dictionary
patch ↦ major.minor.(patch+1), minor ↦ major.(minor+1).0,
major ↦ (major+1).0.0. -/
theorem calculate_next_versions_spec (v : String) (M m p : Nat)
    (h : parse_version v = some (M, m, p)) :
    calculate_next_versions v
      = some ⟨fmt3 M m (p + 1), fmt3 M (m + 1) 0, fmt3 (M + 1) 0 0⟩ := by
  simp [calculate_next_versions, h]

/-- Witness for C2 at "2.5.9", which yields patch "2.5.10", minor "2.6.0",
major "3.0.0". -/
theorem calculate_next_versions_spec_witness :
    parse_version "2.5.9" = some (2, 5, 9) ∧
    calculate_next_versions "2.5.9" = some ⟨"2.5.10", "2.6.0", "3.0.0"⟩ :=
  ⟨by decide, (calculate_next_versions_spec "2.5.9" 2 5 9 (by decide)).trans (by decide)⟩

/-- C3 fails on the code: requesting the unknown change type "hotfix" does
raise the invalid-change-type error, but only after the version sync, the
version resolution (an external call) and the next-version computation (the
version arithmetic) have all run, because the validity check is a membership
test on the dictionary `calculate_next_versions` has already built. -/
theorem prepare_invalid_type_counterexample :
    (prepare_release_by_type "hotfix" false true "1.2.3").2
      = Except.error "Invalid change type: hotfix" ∧
    Event.sync_version_json ∈ (prepare_release_by_type "hotfix" false true "1.2.3").1 ∧
    Event.get_current_version ∈ (prepare_release_by_type "hotfix" false true "1.2.3").1 ∧
    Event.calculate_next ∈ (prepare_release_by_type "hotfix" false true "1.2.3").1 := by
  refine ⟨rfl, ?_, ?_, ?_⟩ <;> decide

/-- C3 as amended: an unknown change type makes `prepare_release_by_type`
fail with the InvalidArgument error before commits are fetched, before old
drafts are cleaned up and before any draft is created or updated — though
after the version sync, the version resolution and the next-version
computation, on which the membership check depends. -/
theorem prepare_invalid_type (change_type : String) (beta sync_v : Bool)
    (v : String) (nv : NextVersions)
    (hv : calculate_next_versions v = some nv)
    (hp : change_type ≠ "patch") (hm : change_type ≠ "minor")
    (hM : change_type ≠ "major") :
    (prepare_release_by_type change_type beta sync_v v).2
      = Except.error ("Invalid change type: " ++ change_type) ∧
    ∀ e ∈ (prepare_release_by_type change_type beta sync_v v).1,
      e = Event.sync_version_json ∨ e = Event.get_current_version ∨
        e = Event.calculate_next := by
  have hget : nv.get change_type = none := by
    simp [NextVersions.get, hp, hm, hM]
  unfold prepare_release_by_type
  rw [hv]
  simp only [hget]
  refine ⟨trivial, ?_⟩
  intro e he
  cases sync_v <;> simp at he <;> tauto

/-- Witness for the amended C3 at change type "hotfix" over current version
"1.2.3". -/
theorem prepare_invalid_type_witness :
    (prepare_release_by_type "hotfix" false true "1.2.3").2
      = Except.error ("Invalid change type: " ++ "hotfix") ∧
    ∀ e ∈ (prepare_release_by_type "hotfix" false true "1.2.3").1,
      e = Event.sync_version_json ∨ e = Event.get_current_version ∨
        e = Event.calculate_next :=
  prepare_invalid_type "hotfix" false true "1.2.3" ⟨"1.2.4", "1.3.0", "2.0.0"⟩
    (by decide) (by decide) (by decide) (by decide)

/-- C4: a beta run for any recognized change type takes the base candidate
version B for that type and produces version B ++ "-beta.1" (literal
concatenation, independent of any prior state, so it is never incremented),
tag name "candidate-beta-{changeType}-vB" keyed off the base version, a
title marking "Beta {ChangeType}", and the pre-release flag set. -/
theorem prepare_beta_identity (change_type v : String) (sync_v : Bool)
    (nv : NextVersions) (base : String)
    (hv : calculate_next_versions v = some nv)
    (hb : nv.get change_type = some base) :
    (prepare_release_by_type change_type true sync_v v).2 = Except.ok
      { version := base ++ "-beta.1"
        tag_name := "candidate-beta-" ++ change_type ++ "-v" ++ base
        title := "🧪 ADRI v" ++ (base ++ "-beta.1") ++ " - Beta "
          ++ pyTitle change_type ++ " (DRAFT)"
        release_type := "beta-" ++ change_type
        is_prerelease := true } := by
  unfold prepare_release_by_type
  rw [hv]
  simp [hb]

/-- Witness for C4: the beta minor run over current version "2.5.9" (base
candidate "2.6.0") yields version "2.6.0-beta.1", tag
"candidate-beta-minor-v2.6.0" and a pre-release draft. -/
theorem prepare_beta_identity_witness :
    (prepare_release_by_type "minor" true true "2.5.9").2 = Except.ok
      { version := "2.6.0-beta.1"
        tag_name := "candidate-beta-minor-v2.6.0"
        title := "🧪 ADRI v2.6.0-beta.1 - Beta Minor (DRAFT)"
        release_type := "beta-minor"
        is_prerelease := true } :=
  (prepare_beta_identity "minor" "2.5.9" true ⟨"2.5.10", "2.6.0", "3.0.0"⟩
    "2.6.0" (by decide) (by decide)).trans (by rfl)

/-- C5: a non-beta run for any recognized change type publishes exactly the
candidate version V for that type, tag name "candidate-{changeType}-vV", a
title made of the change-type-specific emoji and the words
"{ChangeType} Release (DRAFT)", and no pre-release flag; the emoji table
assigns a distinct glyph to each of the three change types. -/
theorem prepare_nonbeta_identity (change_type v : String) (sync_v : Bool)
    (nv : NextVersions) (base : String)
    (hv : calculate_next_versions v = some nv)
    (hb : nv.get change_type = some base) :
    ((prepare_release_by_type change_type false sync_v v).2 = Except.ok
      { version := base
        tag_name := "candidate-" ++ change_type ++ "-v" ++ base
        title := emojiFor change_type ++ " ADRI v" ++ base ++ " - "
          ++ pyTitle change_type ++ " Release (DRAFT)"
        release_type := change_type
        is_prerelease := false }) ∧
    emojiFor "patch" = "🔧" ∧ emojiFor "minor" = "🚀" ∧ emojiFor "major" = "💥" := by
  refine ⟨?_, by decide, by decide, by decide⟩
  unfold prepare_release_by_type
  rw [hv]
  simp [hb]

/-- Witness for C5: the non-beta major run over current version "2.5.9"
(candidate "3.0.0") yields tag "candidate-major-v3.0.0" and no pre-release
flag. -/
theorem prepare_nonbeta_identity_witness :
    ((prepare_release_by_type "major" false true "2.5.9").2 = Except.ok
      { version := "3.0.0"
        tag_name := "candidate-major-v3.0.0"
        title := "💥 ADRI v3.0.0 - Major Release (DRAFT)"
        release_type := "major"
        is_prerelease := false }) ∧
    emojiFor "patch" = "🔧" ∧ emojiFor "minor" = "🚀" ∧ emojiFor "major" = "💥" := by
  have h := prepare_nonbeta_identity "major" "2.5.9" true
    ⟨"2.5.10", "2.6.0", "3.0.0"⟩ "3.0.0" (by decide) (by decide)
  exact ⟨h.1.trans (by rfl), h.2.1, h.2.2.1, h.2.2.2⟩

/-- C6 fails on the code: when the production-index query raises (index
unreachable) rather than merely finding no version, the single `try` around
both index queries catches it and abandons the whole package-index step, so
the staging index — the next source, which here knows version "9.9.9" — is
never consulted and resolution falls directly to the local manifest's
"1.0.0". -/
theorem get_current_version_counterexample :
    get_current_version
      ⟨true, Except.error "production index unreachable",
        Except.ok (some "9.9.9"), Except.ok "1.0.0"⟩ = Except.ok "1.0.0" ∧
    get_current_version
      ⟨true, Except.error "production index unreachable",
        Except.ok (some "9.9.9"), Except.ok "1.0.0"⟩ ≠ Except.ok "9.9.9" := by
  refine ⟨rfl, ?_⟩
  intro h
  have h2 := Except.ok.inj h
  exact absurd h2 (by decide)

/-- C6 as amended: resolution prefers the production index, then the staging
index, then the local manifest, except that an exception from the production
query (as opposed to a "no version found" answer) skips the staging index
and falls directly to the manifest; every index failure is caught and treated
as no version, and when every source has failed the resolved-version step
fails (ResolutionError) instead of producing an undefined version. -/
theorem get_current_version_resolution :
    (∀ (env : VersionEnv) (v : String), env.use_pypi = true →
      env.production_query = Except.ok (some v) →
      get_current_version env = Except.ok v) ∧
    (∀ (env : VersionEnv) (v : String), env.use_pypi = true →
      env.production_query = Except.ok none →
      env.testpypi_query = Except.ok (some v) →
      get_current_version env = Except.ok v) ∧
    (∀ (env : VersionEnv) (e : String), env.use_pypi = true →
      env.production_query = Except.error e →
      get_current_version env = get_current_version_from_pyproject env) ∧
    (∀ (env : VersionEnv) (e : String),
      get_current_version_from_pypi env = none →
      get_current_version_from_pyproject env = Except.error e →
      get_current_version env = Except.error e) := by
  refine ⟨?_, ?_, ?_, ?_⟩
  · intro env v hu hp
    simp [get_current_version, get_current_version_from_pypi, hu, hp]
  · intro env v hu hp ht
    simp [get_current_version, get_current_version_from_pypi, hu, hp, ht]
  · intro env e hu hp
    simp [get_current_version, get_current_version_from_pypi, hu, hp]
  · intro env e hn hf
    simp [get_current_version, hn, get_current_version_from_pyproject] at hf ⊢
    rw [hf]

/-- Witness for the amended C6: production answering directly, staging
answering after production finds nothing, manifest answering after a
production exception, and the all-sources-fail abort. -/
theorem get_current_version_resolution_witness :
    get_current_version
      ⟨true, Except.ok (some "1.0.0"), Except.ok (some "0.9.0"), Except.ok "0.8.0"⟩
      = Except.ok "1.0.0" ∧
    get_current_version
      ⟨true, Except.ok none, Except.ok (some "0.9.0"), Except.ok "0.8.0"⟩
      = Except.ok "0.9.0" ∧
    get_current_version
      ⟨true, Except.error "down", Except.ok (some "0.9.0"), Except.ok "0.8.0"⟩
      = Except.ok "0.8.0" ∧
    get_current_version
      ⟨true, Except.error "down", Except.error "down", Except.error "missing"⟩
      = Except.error "missing" := by
  refine ⟨?_, ?_, ?_, ?_⟩
  · exact get_current_version_resolution.1 _ "1.0.0" rfl rfl
  · exact get_current_version_resolution.2.1 _ "0.9.0" rfl rfl rfl
  · exact (get_current_version_resolution.2.2.1 _ "down" rfl rfl).trans rfl
  · exact get_current_version_resolution.2.2.2 _ "missing" rfl rfl

theorem commit_summary_empty : commit_summary [] = "• See commit history for detailed changes" := rfl

theorem commit_summary_small (commits : List Commit) (hne : commits ≠ [])
    (hle : commits.length ≤ 8) :
    commit_summary commits
      = "Recent Changes:\n\n" ++ String.intercalate "\n" (commits.map commitLine) := by
  unfold commit_summary
  rw [List.take_of_length_le hle]
  simp [List.isEmpty_iff, hne]
  omega

theorem commit_summary_overflow (commits : List Commit) (hgt : 8 < commits.length) :
    commit_summary commits
      = "Recent Changes:\n\n"
        ++ String.intercalate "\n" ((commits.take 8).map commitLine)
        ++ ("\n• ... and " ++ pyStrS (commits.length - 8) ++ " more commits") := by
  have hne : commits ≠ [] := by
    intro h; rw [h] at hgt; simp at hgt
  unfold commit_summary
  simp [List.isEmpty_iff, hne, hgt]

theorem string_append_data (a b : String) : (a ++ b).data = a.data ++ b.data := by
  cases a; cases b; rfl

theorem truncateMessage_length (msg : String) :
    (truncateMessage msg).data.length = min msg.data.length 60 := by
  unfold truncateMessage
  by_cases h : 60 < msg.data.length
  · rw [if_pos h, string_append_data, List.length_append]
    have hd : (⟨msg.data.take 57⟩ : String).data = msg.data.take 57 := rfl
    have he : ("..." : String).data.length = 3 := rfl
    rw [hd, List.length_take, he]
    omega
  · rw [if_neg h]
    omega

/-- C7: the rendered commit summary has the fallback line for zero commits,
one bulleted "message (short-hash)" line per commit for one to eight
commits, the first eight lines plus an omitted-count line beyond eight; a
message over 60 characters is cut to its first 57 characters plus an
ellipsis, so a rendered message never exceeds 60 characters. -/
theorem commit_summary_spec :
    (∀ commits : List Commit, commits = [] →
      commit_summary commits = "• See commit history for detailed changes") ∧
    (∀ commits : List Commit, commits ≠ [] → commits.length ≤ 8 →
      commit_summary commits
        = "Recent Changes:\n\n" ++ String.intercalate "\n" (commits.map commitLine)) ∧
    (∀ commits : List Commit, 8 < commits.length →
      commit_summary commits
        = "Recent Changes:\n\n"
          ++ String.intercalate "\n" ((commits.take 8).map commitLine)
          ++ ("\n• ... and " ++ pyStrS (commits.length - 8) ++ " more commits")) ∧
    (∀ msg : String, (truncateMessage msg).data.length = min msg.data.length 60) ∧
    (∀ msg : String, 60 < msg.data.length →
      truncateMessage msg = (⟨msg.data.take 57⟩ : String) ++ "...") ∧
    (∀ c : Commit, commitLine c
      = "• " ++ truncateMessage c.message ++ " (" ++ c.sha ++ ")") := by
  refine ⟨?_, ?_, ?_, truncateMessage_length, ?_, ?_⟩
  · intro commits h; rw [h]; exact commit_summary_empty
  · exact commit_summary_small
  · exact commit_summary_overflow
  · intro msg h
    unfold truncateMessage
    rw [if_pos h]
  · intro c; rfl

/-- Witness for C7: the three summary shapes at 0, 1 and 9 commits and the
truncation of a 70-character message (57 characters plus "...", 60 total). -/
theorem commit_summary_spec_witness :
    commit_summary [] = "• See commit history for detailed changes" ∧
    commit_summary [⟨"abc1234", "Fix version parser", "ann", "2024-01-01"⟩]
      = "Recent Changes:\n\n• Fix version parser (abc1234)" ∧
    commit_summary (List.replicate 9 ⟨"abc1234", "Fix version parser", "ann", "2024-01-01"⟩)
      = "Recent Changes:\n\n"
        ++ String.intercalate "\n"
          (((List.replicate 9
            (⟨"abc1234", "Fix version parser", "ann", "2024-01-01"⟩ : Commit)).take 8).map
              commitLine)
        ++ ("\n• ... and "
            ++ pyStrS ((List.replicate 9
              (⟨"abc1234", "Fix version parser", "ann", "2024-01-01"⟩ : Commit)).length - 8)
            ++ " more commits") ∧
    (truncateMessage "0123456789012345678901234567890123456789012345678901234567890123456789").data.length
      = min ("0123456789012345678901234567890123456789012345678901234567890123456789" : String).data.length 60 ∧
    truncateMessage "0123456789012345678901234567890123456789012345678901234567890123456789"
      = "012345678901234567890123456789012345678901234567890123456" ++ "..." := by
  refine ⟨commit_summary_spec.1 [] rfl, ?_, ?_, commit_summary_spec.2.2.2.1 _, ?_⟩
  · exact (commit_summary_spec.2.1 _ (by decide) (by decide)).trans (by decide)
  · exact commit_summary_spec.2.2.1 _ (by decide)
  · exact (commit_summary_spec.2.2.2.2.1 _ (by decide)).trans (by decide)

/-- C8: publishing the same (tag, title, body, flag) draft twice over any
release list that does not yet carry the tag converges: the second run finds
the draft the first run created and edits it in place, leaving exactly one
draft release bearing the tag — and an unchanged release list. -/
theorem create_or_update_draft_idempotent (releases : List Release)
    (tag title body : String) (pre : Bool)
    (hfresh : ∀ r ∈ releases, r.tagName ≠ tag) :
    create_or_update_draft (create_or_update_draft releases tag title body pre)
        tag title body pre
      = create_or_update_draft releases tag title body pre ∧
    (create_or_update_draft releases tag title body pre).countP
        (fun r => r.isDraft && r.tagName == tag) = 1 ∧
    (create_or_update_draft (create_or_update_draft releases tag title body pre)
        tag title body pre).countP
        (fun r => r.isDraft && r.tagName == tag) = 1 := by
  have hnone : releases.any (fun r => r.isDraft && r.tagName == tag) = false := by
    rw [List.any_eq_false]
    intro r hr
    simp [hfresh r hr]
  have h1 : create_or_update_draft releases tag title body pre
      = releases ++ [⟨tag, title, body, true, pre⟩] := by
    unfold create_or_update_draft
    rw [hnone]
    simp
  have hupd : ∀ r ∈ releases,
      (if r.tagName == tag then
        { r with
          name := title
          body := body
          isDraft := true
          isPrerelease := if pre then true else r.isPrerelease }
      else r) = r := by
    intro r hr
    simp [hfresh r hr]
  have hsome : (releases ++ [(⟨tag, title, body, true, pre⟩ : Release)]).any
      (fun r => r.isDraft && r.tagName == tag) = true := by
    rw [List.any_append]
    simp
  have h2 : create_or_update_draft (releases ++ [⟨tag, title, body, true, pre⟩])
      tag title body pre = releases ++ [⟨tag, title, body, true, pre⟩] := by
    unfold create_or_update_draft
    rw [hsome, if_pos rfl, List.map_append, List.map_congr_left hupd]
    cases pre <;> simp
  have hcount : (releases ++ [(⟨tag, title, body, true, pre⟩ : Release)]).countP
      (fun r => r.isDraft && r.tagName == tag) = 1 := by
    rw [List.countP_append]
    have hz : releases.countP (fun r => r.isDraft && r.tagName == tag) = 0 := by
      rw [List.countP_eq_zero]
      intro r hr
      simp [hfresh r hr]
    rw [hz]
    simp [List.countP_cons]
  refine ⟨?_, ?_, ?_⟩
  · rw [h1, h2]
  · rw [h1, hcount]
  · rw [h1, h2, hcount]

/-- Witness for C8: publishing the beta-minor candidate draft twice over a
release list holding one unrelated published release. -/
theorem create_or_update_draft_idempotent_witness :
    create_or_update_draft
        (create_or_update_draft [⟨"v1.0.0", "ADRI v1.0.0", "notes", false, false⟩]
          "candidate-beta-minor-v2.6.0" "title" "body" true)
        "candidate-beta-minor-v2.6.0" "title" "body" true
      = create_or_update_draft [⟨"v1.0.0", "ADRI v1.0.0", "notes", false, false⟩]
          "candidate-beta-minor-v2.6.0" "title" "body" true ∧
    (create_or_update_draft [⟨"v1.0.0", "ADRI v1.0.0", "notes", false, false⟩]
        "candidate-beta-minor-v2.6.0" "title" "body" true).countP
        (fun r => r.isDraft && r.tagName == "candidate-beta-minor-v2.6.0") = 1 ∧
    (create_or_update_draft
        (create_or_update_draft [⟨"v1.0.0", "ADRI v1.0.0", "notes", false, false⟩]
          "candidate-beta-minor-v2.6.0" "title" "body" true)
        "candidate-beta-minor-v2.6.0" "title" "body" true).countP
        (fun r => r.isDraft && r.tagName == "candidate-beta-minor-v2.6.0") = 1 :=
  create_or_update_draft_idempotent
    [⟨"v1.0.0", "ADRI v1.0.0", "notes", false, false⟩]
    "candidate-beta-minor-v2.6.0" "title" "body" true (by decide)

theorem take_append_le {α : Type} : ∀ (n : Nat) (l r : List α), n ≤ l.length →
    (l ++ r).take n = l.take n := by
  intro n
  induction n with
  | zero => intro l r h; simp
  | succ n ih =>
    intro l r h
    cases l with
    | nil => simp at h
    | cons a t =>
      simp only [List.cons_append, List.take_succ_cons]
      rw [ih t r (by simpa using h)]

theorem append_ne_of_early_diff (a b x y : String)
    (ha : 17 ≤ a.data.length) (hb : 17 ≤ b.data.length)
    (hne : a.data.take 17 ≠ b.data.take 17) : a ++ x ≠ b ++ y := by
  intro h
  apply hne
  have hd : (a ++ x).data = (b ++ y).data := by rw [h]
  rw [string_append_data, string_append_data] at hd
  calc a.data.take 17 = (a.data ++ x.data).take 17 := (take_append_le 17 _ _ ha).symm
    _ = (b.data ++ y.data).take 17 := by rw [hd]
    _ = b.data.take 17 := take_append_le 17 _ _ hb

theorem fmt3_ne_of_triple_ne {a1 b1 c1 a2 b2 c2 : Nat}
    (h : (a1, b1, c1) ≠ ((a2, b2, c2) : Nat × Nat × Nat)) :
    fmt3 a1 b1 c1 ≠ fmt3 a2 b2 c2 := by
  intro he
  apply h
  have h2 := (parse_version_fmt3 a1 b1 c1).symm.trans
    ((congrArg parse_version he).trans (parse_version_fmt3 a2 b2 c2))
  exact Option.some.inj h2

theorem tags_pairwise (a b c : String) :
    (["candidate-patch-v" ++ a, "candidate-minor-v" ++ b,
      "candidate-major-v" ++ c, "candidate-beta-patch-v" ++ a,
      "candidate-beta-minor-v" ++ b, "candidate-beta-major-v" ++ c] :
      List String).Pairwise (fun x y => x ≠ y) := by
  refine List.Pairwise.cons ?_ (List.Pairwise.cons ?_ (List.Pairwise.cons ?_
    (List.Pairwise.cons ?_ (List.Pairwise.cons ?_
      (List.pairwise_singleton _ _))))) <;>
    (intro s hs
     fin_cases hs <;>
       exact append_ne_of_early_diff _ _ _ _ (by decide) (by decide) (by decide))

/-- C9: from any parsed current version, the three candidate next versions
parse back to (major, minor, patch+1), (major, minor+1, 0) and
(major+1, 0, 0): they are pairwise distinct strings, each strictly above the
current version in semantic-version order, and the six tags of the legacy
all-types mode are pairwise distinct, so no two of the six drafts collide. -/
theorem next_versions_increasing_distinct (v : String) (M m p : Nat)
    (h : parse_version v = some (M, m, p)) :
    ∃ nv : NextVersions, calculate_next_versions v = some nv ∧
      parse_version nv.patch = some (M, m, p + 1) ∧
      parse_version nv.minor = some (M, m + 1, 0) ∧
      parse_version nv.major = some (M + 1, 0, 0) ∧
      semverLt (M, m, p) (M, m, p + 1) ∧
      semverLt (M, m, p) (M, m + 1, 0) ∧
      semverLt (M, m, p) (M + 1, 0, 0) ∧
      nv.patch ≠ nv.minor ∧ nv.patch ≠ nv.major ∧ nv.minor ≠ nv.major ∧
      ∃ drafts, prepare_all_releases v = some drafts ∧
        (drafts.map DraftSpec.tag_name).Pairwise (fun a b => a ≠ b) := by
  have hcalc : calculate_next_versions v
      = some ⟨fmt3 M m (p + 1), fmt3 M (m + 1) 0, fmt3 (M + 1) 0 0⟩ := by
    simp [calculate_next_versions, h]
  refine ⟨⟨fmt3 M m (p + 1), fmt3 M (m + 1) 0, fmt3 (M + 1) 0 0⟩, hcalc, ?_, ?_, ?_,
    ?_, ?_, ?_, ?_, ?_, ?_, ?_⟩
  · exact parse_version_fmt3 M m (p + 1)
  · exact parse_version_fmt3 M (m + 1) 0
  · exact parse_version_fmt3 (M + 1) 0 0
  · exact Or.inr ⟨rfl, Or.inr ⟨rfl, Nat.lt_succ_self p⟩⟩
  · exact Or.inr ⟨rfl, Or.inl (Nat.lt_succ_self m)⟩
  · exact Or.inl (Nat.lt_succ_self M)
  · exact fmt3_ne_of_triple_ne (by simp)
  · exact fmt3_ne_of_triple_ne (by simp)
  · exact fmt3_ne_of_triple_ne (by simp)
  · refine ⟨legacy_drafts ⟨fmt3 M m (p + 1), fmt3 M (m + 1) 0, fmt3 (M + 1) 0 0⟩,
      ?_, ?_⟩
    · unfold prepare_all_releases
      rw [hcalc]
    · exact tags_pairwise (fmt3 M m (p + 1)) (fmt3 M (m + 1) 0) (fmt3 (M + 1) 0 0)

/-- Witness for C9 at current version "2.5.9". -/
theorem next_versions_increasing_distinct_witness :
    ∃ nv : NextVersions, calculate_next_versions "2.5.9" = some nv ∧
      parse_version nv.patch = some (2, 5, 10) ∧
      parse_version nv.minor = some (2, 6, 0) ∧
      parse_version nv.major = some (3, 0, 0) ∧
      semverLt (2, 5, 9) (2, 5, 10) ∧
      semverLt (2, 5, 9) (2, 6, 0) ∧
      semverLt (2, 5, 9) (3, 0, 0) ∧
      nv.patch ≠ nv.minor ∧ nv.patch ≠ nv.major ∧ nv.minor ≠ nv.major ∧
      ∃ drafts, prepare_all_releases "2.5.9" = some drafts ∧
        (drafts.map DraftSpec.tag_name).Pairwise (fun a b => a ≠ b) :=
  next_versions_increasing_distinct "2.5.9" 2 5 9 (by decide)

/-- C10: the commit-fetch step returns at most 10 commits on every path, so
when the summary's overflow line is rendered at all, the omitted-commit count
it reports is at most 2. -/
theorem get_commits_bounded (env : CommitEnv) :
    (get_commits_since_last_release env).length ≤ 10 ∧
    (8 < (get_commits_since_last_release env).length →
      (get_commits_since_last_release env).length - 8 ≤ 2 ∧
      commit_summary (get_commits_since_last_release env)
        = "Recent Changes:\n\n"
          ++ String.intercalate "\n"
            (((get_commits_since_last_release env).take 8).map commitLine)
          ++ ("\n• ... and "
              ++ pyStrS ((get_commits_since_last_release env).length - 8)
              ++ " more commits")) := by
  have hlen : (get_commits_since_last_release env).length ≤ 10 := by
    unfold get_commits_since_last_release
    split_ifs <;> simp [List.length_take_le]
  refine ⟨hlen, fun hgt => ⟨by omega, commit_summary_overflow _ hgt⟩⟩

/-- Witness for C10 over a repository answering 10 commits, where the
overflow line reports exactly 2 omitted commits. -/
theorem get_commits_bounded_witness :
    (get_commits_since_last_release
      ⟨true, List.replicate 10 ⟨"abc1234", "Fix version parser", "ann", "2024-01-01"⟩,
        true, []⟩).length ≤ 10 ∧
    (8 < (get_commits_since_last_release
      ⟨true, List.replicate 10 ⟨"abc1234", "Fix version parser", "ann", "2024-01-01"⟩,
        true, []⟩).length →
      (get_commits_since_last_release
        ⟨true, List.replicate 10 ⟨"abc1234", "Fix version parser", "ann", "2024-01-01"⟩,
          true, []⟩).length - 8 ≤ 2 ∧
      commit_summary (get_commits_since_last_release
        ⟨true, List.replicate 10 ⟨"abc1234", "Fix version parser", "ann", "2024-01-01"⟩,
          true, []⟩)
        = "Recent Changes:\n\n"
          ++ String.intercalate "\n"
            (((get_commits_since_last_release
              ⟨true, List.replicate 10 ⟨"abc1234", "Fix version parser", "ann", "2024-01-01"⟩,
                true, []⟩).take 8).map commitLine)
          ++ ("\n• ... and "
              ++ pyStrS ((get_commits_since_last_release
                ⟨true, List.replicate 10 ⟨"abc1234", "Fix version parser", "ann", "2024-01-01"⟩,
                  true, []⟩).length - 8)
              ++ " more commits")) :=
  get_commits_bounded
    ⟨true, List.replicate 10 ⟨"abc1234", "Fix version parser", "ann", "2024-01-01"⟩,
      true, []⟩

end ADRI
